import Mathlib

/-!
Verification of the CGM live-data synchronization subsystem of
savaskolak/Diyabet-Takipcileri.

The embedding covers:
* the log data model (the file of shared types: EntryType,
  BloodSugarMeasurementType, LogEntry, SensorInfo, UserSettings status);
* the express backend (src/index.tsx): session table, saveSessions,
  axiosWithRetry, the connect / read / disconnect routes;
* the React sync provider (src/unnamed/part_000): addEntry, syncLibreData,
  connectLibre, disconnectLibre.

Conventions: JS timestamps appearing as ISO-8601 strings in the log are kept
as strings wherever the source compares them as strings (de-duplication uses a
string Set); wherever the source converts them through Date.getTime for
ordering, an explicit conversion function getTime : String -> Int is passed
in, standing for the JS Date parser. Millisecond epochs are Int. Vendor HTTP
interactions are passed in as Except values: an error value stands for a
thrown exception of the corresponding axios call.
-/

namespace Diyabet

/-- Entry kinds, from the EntryType enum of the shared types file. -/
inductive EntryKind where
  | bloodSugar
  | insulin
  | carbs
  | activity
  | note
deriving DecidableEq, Repr

/-- Blood sugar measurement types, from the BloodSugarMeasurementType enum. -/
inductive MeasurementType where
  | beforeMeal
  | afterMeal
  | fasting
  | bedtime
  | other
  | cgm
deriving DecidableEq, Repr

/-- Kind-specific payload of a log entry: the discriminated union
BloodSugarEntry / InsulinEntry / CarbsEntry / ActivityEntry / NoteEntry
of the shared types file, minus the BaseEntry fields. -/
inductive EntryData where
  | bloodSugar (value : Int) (measurementType : MeasurementType) (trendArrow : Option Int)
  | insulin (units : Int)
  | carbs (grams : Int)
  | activity (duration : Int)
  | note (text : String)
deriving DecidableEq, Repr

/-- Discriminant of an EntryData, the type field of a LogEntry. -/
def EntryData.kind : EntryData → EntryKind
  | .bloodSugar _ _ _ => .bloodSugar
  | .insulin _ => .insulin
  | .carbs _ => .carbs
  | .activity _ => .activity
  | .note _ => .note

/-- A log entry: BaseEntry fields plus the kind-specific payload. -/
structure LogEntry where
  id : String
  timestamp : String
  profileId : String
  data : EntryData
deriving DecidableEq, Repr

/-- Connection status of the libreLinkUp settings block. -/
inductive ConnStatus where
  | disconnected
  | connecting
  | connected
  | error
deriving DecidableEq, Repr

/-- A server-side session record, as stored by the connect route
(src/index.tsx lines 171-178). -/
structure Session where
  token : String
  clientVersion : String
  userId : String
  accountId : String
  region : String
  baseURL : String
deriving DecidableEq, Repr

/-- The in-memory sessions Map of src/index.tsx line 56, as an association
list keyed by session id. -/
abbrev SessionTable := List (String × Session)

/-- Lookup in the sessions Map: sessions.get(sessionId). -/
def sessionsGet (t : SessionTable) (k : String) : Option Session :=
  (t.find? (fun p => p.1 == k)).map (fun p => p.2)

/-- Map.set semantics: replace the binding for the key when present,
otherwise append a new one. -/
def sessionsSet (t : SessionTable) (k : String) (v : Session) : SessionTable :=
  if t.any (fun p => p.1 == k) then
    t.map (fun p => if p.1 == k then (k, v) else p)
  else
    t ++ [(k, v)]

/-- Map.delete semantics: sessions.delete(sessionId). -/
def sessionsDelete (t : SessionTable) (k : String) : SessionTable :=
  t.filter (fun p => p.1 != k)

/-- saveSessions from src/index.tsx lines 81-86: serializes the table and
writes it to the sessions file; the whole body is wrapped in try/catch with
an empty handler, so a failing write is swallowed and the caller observes
nothing. The argument is the outcome of the underlying fs write. -/
def saveSessions (writeResult : Except Unit Unit) : Unit :=
  match writeResult with
  | .ok _ => ()
  | .error _ => ()

/-- Classification of a failed axios request, as tested by axiosWithRetry
(src/index.tsx lines 107-108): a timeout (ECONNABORTED or a timeout
message), an HTTP response with a status, or some other network failure
with no response object. -/
inductive AxiosErr where
  | timeout
  | http (status : Nat)
  | network
deriving DecidableEq, Repr

/-- The isTimeout test of src/index.tsx line 107. -/
def AxiosErr.isTimeout : AxiosErr → Bool
  | .timeout => true
  | _ => false

/-- The isServerErr test of src/index.tsx line 108:
error.response.status at least 500. -/
def AxiosErr.isServerErr : AxiosErr → Bool
  | .http s => 500 ≤ s
  | _ => false

/-- axiosWithRetry from src/index.tsx lines 103-118. The request is retried
while retries is positive and the failure is a timeout or a 5xx, sleeping
(4 - retries) seconds before each retry. The argument call gives the
outcome of each successive attempt (attempt numbering starts at k); the
result is the final outcome, the number of attempts performed, and the
list of delays (ms) slept between successive attempts. The route handlers
always invoke it with the default retries = 3. -/
def axiosWithRetry {ρ : Type} (call : Nat → Except AxiosErr ρ) :
    Nat → Nat → Except AxiosErr ρ × Nat × List Nat
  | k, retries =>
    match call k with
    | .ok r => (.ok r, 1, [])
    | .error e =>
      match retries with
      | 0 => (.error e, 1, [])
      | r + 1 =>
        if e.isTimeout || e.isServerErr then
          let rest := axiosWithRetry call (k + 1) r
          (rest.1, rest.2.1 + 1, ((4 - (r + 1)) * 1000) :: rest.2.2)
        else
          (.error e, 1, [])

/-- Error-to-status mapping of the connect route's catch block
(src/index.tsx lines 184-194): a timeout becomes 504, a vendor response
surfaces its own status, anything else becomes 500. -/
def connectErrStatus (e : AxiosErr) : Nat :=
  match e with
  | .timeout => 504
  | .http s => s
  | .network => 500

/-- Milliseconds in one day, the divisor of the daysLeft computation. -/
def msPerDay : Int := 1000 * 60 * 60 * 24

/-- Math.ceil of the exact rational quotient a / b for positive b, the
rounding performed by Math.ceil in the daysLeft computation. -/
def ceilDiv (a b : Int) : Int := Int.ediv (a + b - 1) b

/-- Raw vendor sensor fields used by the read route (src/index.tsx
lines 249-254): a is the activation epoch in seconds, sn the serial,
pt the lifecycle status code. -/
structure SensorRaw where
  a : Option Int
  sn : String
  pt : Option Int
deriving DecidableEq, Repr

/-- Lifecycle state string from the switch on pt (src/index.tsx
lines 254-263); unmapped codes fall through to the labeled default. -/
def sensorStateStr (pt : Option Int) : String :=
  match pt with
  | some 1 => "Isınıyor"
  | some 2 => "Aktif"
  | some 3 => "Süresi Doldu"
  | some 4 => "Bitti"
  | some 5 => "Hata"
  | some n => "Durum " ++ toString n
  | none => "Durum undefined"

/-- Normalized sensor info as built by the read route (src/index.tsx
lines 277-283); the ISO date strings of the response are kept as their
millisecond epochs, which the toISOString serialization determines. -/
structure SensorInfo where
  serial : String
  startDateMs : Int
  endDateMs : Int
  daysLeft : Int
  state : String
deriving DecidableEq, Repr

/-- Sensor wear-life computation of src/index.tsx lines 265-283: when a
truthy activation epoch is present, startDate is the activation time,
endDate is startDate plus 14 days, and daysLeft is
max(0, ceil((endDate - now) / 1 day)); otherwise both dates default to
now and daysLeft stays 0. -/
def mkSensorInfo (s : SensorRaw) (nowMs : Int) : SensorInfo :=
  match s.a with
  | some act =>
    if act ≠ 0 then
      let startMs := act * 1000
      let endMs := startMs + 14 * msPerDay
      { serial := s.sn, startDateMs := startMs, endDateMs := endMs,
        daysLeft := max 0 (ceilDiv (endMs - nowMs) msPerDay),
        state := sensorStateStr s.pt }
    else
      { serial := s.sn, startDateMs := nowMs, endDateMs := nowMs,
        daysLeft := 0, state := sensorStateStr s.pt }
  | none =>
    { serial := s.sn, startDateMs := nowMs, endDateMs := nowMs,
      daysLeft := 0, state := sensorStateStr s.pt }

/-- Raw glucose measurement fields as read by the route (src/index.tsx
lines 240-247): value after the Value/value aliasing, the measurement
timestamp as parsed to a millisecond epoch, and the trend arrow. An
absent value defaults to 0 and an absent timestamp to now, per the
nullish-coalescing chains of lines 243-244. -/
structure RawGm where
  value : Option Int
  timestampMs : Option Int
  trendArrow : Option Int
deriving DecidableEq, Repr

/-- One element of the vendor connections array (src/index.tsx
lines 233-254): its pending flag, the embedded glucose measurement (after
the connection.glucoseMeasurement / glucoseMeasurement aliasing), the raw
sensor block, and the patient id used for the graph fallback. -/
structure RawConn where
  pending : Option Bool
  gm : Option RawGm
  sensor : Option SensorRaw
  patientId : String
deriving DecidableEq, Repr

/-- Response of the connections call: its HTTP status and, when
cons.data.data is an array, that array. -/
structure ConsResp where
  status : Nat
  data : Option (List RawConn)
deriving DecidableEq, Repr

/-- One entry of the historical graph payload (src/index.tsx lines
298-305), with its timestamp parsed to a millisecond epoch. -/
structure GraphItem where
  value : Option Int
  timestampMs : Int
deriving DecidableEq, Repr

/-- Response of the graph fallback call: its HTTP status and, when
hist.data.data.graphData is present, that array. -/
structure HistResp where
  status : Nat
  graphData : Option (List GraphItem)
deriving DecidableEq, Repr

/-- Reading returned by the read route (spec Reading shape): value (null in
a sensor-only response), timestamp as millisecond epoch, optional trend
arrow and sensor info. -/
structure ReadingOut where
  value : Option Int
  timestampMs : Int
  trendArrow : Option Int
  sensor : Option SensorInfo
deriving DecidableEq, Repr

/-- Outcome of the read route, one constructor per res.* call of the
handler (src/index.tsx lines 198-332). -/
inductive ReadResult where
  | badRequest
  | sessionNotFound
  | tokenExpired
  | noData
  | ok (r : ReadingOut)
deriving DecidableEq, Repr

/-- HTTP status carried by each read-route outcome. -/
def ReadResult.status : ReadResult → Nat
  | .badRequest => 400
  | .sessionNotFound => 401
  | .tokenExpired => 401
  | .noData => 204
  | .ok _ => 200

/-- Selection of the first connection (src/index.tsx line 233): the first
entry whose pending flag is strictly false, or else the first entry. -/
def firstConnection (c : ConsResp) : Option RawConn :=
  match c.data with
  | some conns =>
    match conns.find? (fun cn => cn.pending == some false) with
    | some x => some x
    | none => conns.head?
  | none => none

/-- The embedded reading extracted from the first connection
(src/index.tsx lines 240-247): value defaulting to 0, timestamp
defaulting to now. -/
def embeddedReading (first : RawConn) (nowMs : Int) : Option (Int × Int) :=
  first.gm.map (fun g => (g.value.getD 0, g.timestampMs.getD nowMs))

/-- The sensor info computed from the first connection (src/index.tsx
lines 249-284). -/
def sensorOfConn (first : RawConn) (nowMs : Int) : Option SensorInfo :=
  first.sensor.map (fun s => mkSensorInfo s nowMs)

/-- Staleness test of src/index.tsx lines 287-288: the reading is missing,
or its timestamp is more than 15 minutes old. -/
def isStaleReading (reading : Option (Int × Int)) (nowMs : Int) : Bool :=
  match reading with
  | none => true
  | some rt => decide (15 * 60 * 1000 < nowMs - rt.2)

/-- Guard of the graph fallback (src/index.tsx line 290): the embedded
reading is stale and the sensor is not warming up. -/
def needsGraphFallback (reading : Option (Int × Int))
    (sInfo : Option SensorInfo) (nowMs : Int) : Bool :=
  let isWarm :=
    match sInfo with
    | some si => si.state == "Isınıyor"
    | none => false
  isStaleReading reading nowMs && !isWarm

/-- Graph fallback body (src/index.tsx lines 298-306): take the graphData
array (defaulting to empty), and when it is non-empty sort it by timestamp
descending and replace the reading with its head; the HTTP status of the
graph response is never examined. -/
def graphUpdate (h : HistResp) (reading : Option (Int × Int)) :
    Option (Int × Int) :=
  let items := h.graphData.getD []
  if 0 < items.length then
    let sorted := items.mergeSort (fun a b => decide (b.timestampMs ≤ a.timestampMs))
    match sorted.head? with
    | some last => some (last.value.getD 0, last.timestampMs)
    | none => reading
  else
    reading

/-- Response assembly of src/index.tsx lines 309-326: a present reading is
returned with the trend arrow and sensor attached when present; otherwise
a sensor-only body with a null value; otherwise 204. -/
def finishRead (reading : Option (Int × Int)) (trend : Option Int)
    (sInfo : Option SensorInfo) (nowMs : Int) : ReadResult :=
  match reading with
  | some rt =>
    .ok { value := some rt.1, timestampMs := rt.2, trendArrow := trend, sensor := sInfo }
  | none =>
    match sInfo with
    | some si =>
      .ok { value := none, timestampMs := nowMs, trendArrow := none, sensor := some si }
    | none => .noData

/-- The read route handler (src/index.tsx lines 198-332). Inputs: the
session table, the sessionId query parameter, the outcomes of the
connections call and of the graph call (an Except error stands for a
thrown axios exception, which the outer catch of lines 328-331 turns into
a 204), and the current time. Output: the response and the resulting
session table (the table changes only on the 401 branch of lines
228-231, which deletes the session). -/
def readRoute (t : SessionTable) (sessionId : Option String)
    (cons : Except Unit ConsResp) (hist : Except Unit HistResp)
    (nowMs : Int) : ReadResult × SessionTable :=
  match sessionId with
  | none => (.badRequest, t)
  | some sid =>
    if sid.isEmpty then (.badRequest, t)
    else
      match sessionsGet t sid with
      | none => (.sessionNotFound, t)
      | some _ =>
        match cons with
        | .error _ => (.noData, t)
        | .ok c =>
          if c.status == 401 then
            (.tokenExpired, sessionsDelete t sid)
          else
            match firstConnection c with
            | none => (.noData, t)
            | some first =>
              let reading0 := embeddedReading first nowMs
              let trend : Option Int := first.gm.bind (fun g => g.trendArrow)
              let sInfo := sensorOfConn first nowMs
              if needsGraphFallback reading0 sInfo nowMs then
                match hist with
                | .error _ => (.noData, t)
                | .ok h => (finishRead (graphUpdate h reading0) trend sInfo nowMs, t)
              else
                (finishRead reading0 trend sInfo nowMs, t)

/-- The connect route's success path (src/index.tsx lines 168-182): store
the session under the fresh id, call saveSessions (whose write outcome is
passed through and swallowed there), and answer success with the id. -/
structure ConnectResp where
  status : Nat
  success : Bool
  sessionId : Option String
deriving DecidableEq, Repr

/-- Session-storing step of the connect route (src/index.tsx
lines 168-182). -/
def connectStoreSession (t : SessionTable) (sessionId : String) (s : Session)
    (writeResult : Except Unit Unit) : SessionTable × ConnectResp :=
  let t1 := sessionsSet t sessionId s
  let _ := saveSessions writeResult
  (t1, { status := 200, success := true, sessionId := some sessionId })

/-- Response of the disconnect route. -/
structure DisconnectResp where
  success : Bool
deriving DecidableEq, Repr

/-- The disconnect route (src/index.tsx lines 334-339): delete the session
when a truthy sessionId is supplied, call saveSessions, always answer
success true. -/
def disconnectRoute (t : SessionTable) (sessionId : Option String)
    (writeResult : Except Unit Unit) : SessionTable × DisconnectResp :=
  let t1 :=
    match sessionId with
    | some sid => if sid.isEmpty then t else sessionsDelete t sid
    | none => t
  let _ := saveSessions writeResult
  (t1, { success := true })

/-- The JS sort of the log (part_000 lines 185 and 274): comparator
(a, b) => getTime(b.timestamp) - getTime(a.timestamp), i.e. entries in
non-increasing order of parsed timestamp. getTime stands for the JS Date
parser applied to the ISO string. -/
def sortByTimestampDesc (getTime : String → Int) (l : List LogEntry) : List LogEntry :=
  l.mergeSort (fun a b => decide (getTime b.timestamp ≤ getTime a.timestamp))

/-- The descending-timestamp ordering predicate on a log. -/
def SortedDesc (getTime : String → Int) (l : List LogEntry) : Prop :=
  l.Pairwise (fun a b => getTime b.timestamp ≤ getTime a.timestamp)

/-- addEntry from part_000 lines 175-200: a no-op without an active
profile; otherwise build the entry (the timestamp override applies only
when truthy, per the JS || of line 181) and re-sort the whole log with
the new entry appended. -/
def addEntry (getTime : String → Int) (activeProfileId : Option String)
    (newId nowIso : String) (d : EntryData) (tsOverride : Option String)
    (prev : List LogEntry) : List LogEntry :=
  match activeProfileId with
  | none => prev
  | some pid =>
    let ts :=
      match tsOverride with
      | some s => if s.isEmpty then nowIso else s
      | none => nowIso
    let newEntry : LogEntry := { id := newId, timestamp := ts, profileId := pid, data := d }
    sortByTimestampDesc getTime (prev ++ [newEntry])

/-- A fetched reading as consumed by syncLibreData: value (null for a
sensor-only payload), ISO timestamp string, optional trend arrow and
sensor info. -/
structure SyncReading where
  value : Option Int
  timestamp : String
  trendArrow : Option Int
  sensor : Option SensorInfo
deriving DecidableEq, Repr

/-- The forEach of part_000 lines 256-271: a reading produces a new entry
only when its timestamp is not already among the existing timestamps, its
value is non-null, and an active profile id is available; the entry is a
blood-sugar entry with CGM measurement type carrying the active profile
id. newId indexes the uuid generated for each pushed entry. -/
def syncNewEntries (newId : Nat → String) (pid : Option String)
    (existing : List String) : Nat → List SyncReading → List LogEntry
  | _, [] => []
  | i, r :: rs =>
    let rest := syncNewEntries newId pid existing (i + 1) rs
    if r.timestamp ∈ existing then rest
    else
      match r.value with
      | none => rest
      | some v =>
        match pid with
        | none => rest
        | some p =>
          { id := newId i, timestamp := r.timestamp, profileId := p,
            data := .bloodSugar v .cgm r.trendArrow } :: rest

/-- The setLogEntries updater of part_000 lines 252-277: collect the new
entries against the set of existing timestamps; when at least one exists,
append them and re-sort the whole log descending, otherwise return the
previous log unchanged. -/
def syncMergeLog (getTime : String → Int) (newId : Nat → String)
    (pid : Option String) (readings : List SyncReading)
    (prev : List LogEntry) : List LogEntry :=
  let newEntries := syncNewEntries newId pid (prev.map (fun e => e.timestamp)) 0 readings
  if 0 < newEntries.length then
    sortByTimestampDesc getTime (prev ++ newEntries)
  else
    prev

/-- Log effect of one successful sync tick (part_000 lines 249-277): an
empty readings array returns immediately, otherwise the merge runs. -/
def syncTickLog (getTime : String → Int) (newId : Nat → String)
    (pid : Option String) (readings : List SyncReading)
    (prev : List LogEntry) : List LogEntry :=
  if readings.isEmpty then prev
  else syncMergeLog getTime newId pid readings prev

/-- Iterated sync ticks over the same fetched readings. -/
def iterTicks (getTime : String → Int) (newId : Nat → String)
    (pid : Option String) (readings : List SyncReading) :
    Nat → List LogEntry → List LogEntry
  | 0, l => l
  | n + 1, l => iterTicks getTime newId pid readings n
      (syncTickLog getTime newId pid readings l)

/-- The test of part_000 line 294: error.message.includes of the string
Oturum, recognizing a session-expiry failure; substring occurrence is
expressed as an infix of the character list. -/
def msgMentionsOturum (msg : String) : Bool :=
  decide (List.IsInfix "Oturum".data msg.data)

/-- Client-side state touched by the sync loop: the log and the
libreLinkUp connection status. -/
structure ClientState where
  log : List LogEntry
  status : ConnStatus
deriving Repr

/-- Modelled from the spec: fetchLatestReadings of src/api/libre.ts is not
among the sources; per spec section 6 the read endpoint answers 401 on
session expiry and the caller must disconnect, and the catch of part_000
line 294 recognizes that failure by the message containing Oturum. The
wrapper is modelled as an Except whose error carries that message, and a
401 read response is modelled as mapping to an error message mentioning
Oturum. -/
def fetchResultOfRead (r : ReadResult) : Except String (List SyncReading) :=
  match r with
  | .tokenExpired => .error "Oturum süresi doldu"
  | .sessionNotFound => .error "Oturum bulunamadı"
  | _ => .ok []

/-- One full sync tick (part_000 lines 243-298) together with the server
table it acts on through apiDisconnect: a no-op without a local session
marker; on a successful fetch the log merge runs; on a failure whose
message mentions Oturum, disconnectLibre runs (the server disconnect route
deletes the session and the status is reset to disconnected, part_000
lines 233-240); any other failure is swallowed. -/
def syncTick (getTime : String → Int) (newId : Nat → String)
    (hasSessionMarker : Bool) (pid : Option String)
    (fetchResult : Except String (List SyncReading))
    (t : SessionTable) (sid : Option String) (writeResult : Except Unit Unit)
    (cs : ClientState) : SessionTable × ClientState :=
  if !hasSessionMarker then (t, cs)
  else
    match fetchResult with
    | .ok readings =>
      (t, { cs with log := syncTickLog getTime newId pid readings cs.log })
    | .error msg =>
      if msgMentionsOturum msg then
        ((disconnectRoute t sid writeResult).1, { cs with status := .disconnected })
      else
        (t, cs)

/-- Outcome of the 75-second race of part_000 lines 306-314: the login
promise wins when it settles strictly before 75000 ms, otherwise the
timeout rejects with TIMEOUT. loginResult is the settlement of
connectToLibre: ok b for a resolution whose success field is b, error for
a rejection. -/
def connectRace (loginMs : Nat) (loginResult : Except String Bool) :
    Except String Bool :=
  if loginMs < 75000 then loginResult else .error "TIMEOUT"

/-- connectLibre from part_000 lines 300-357, reduced to its status and
timing behaviour: on a raced success the status becomes connected and the
first sync is awaited after the race, so the elapsed time is the login
time plus the sync time; on any failure (raced timeout, rejection, or a
result without success) the catch applies the mock fallback: status
connected when the libreIsMock flag is set, error otherwise. The second
component is the elapsed time at which the final status is set. -/
def connectLibre (mockFlag : Bool) (loginMs syncMs : Nat)
    (loginResult : Except String Bool) : ConnStatus × Nat :=
  match connectRace loginMs loginResult with
  | .ok true => (.connected, loginMs + syncMs)
  | .ok false => (if mockFlag then .connected else .error, loginMs)
  | .error _ => (if mockFlag then .connected else .error, min loginMs 75000)

/-- An insertion operation on the log: a manual addEntry or a sync-loop
merge of fetched readings. -/
inductive LogOp where
  | manual (newId nowIso : String) (d : EntryData) (ts : Option String) (pid : Option String)
  | sync (newId : Nat → String) (pid : Option String) (readings : List SyncReading)

/-- Apply one log operation. -/
def applyOp (getTime : String → Int) : LogOp → List LogEntry → List LogEntry
  | .manual nid now d ts pid, l => addEntry getTime pid nid now d ts l
  | .sync nid pid rs, l => syncMergeLog getTime nid pid rs l

/-- Apply a sequence of log operations in order. -/
def applyOps (getTime : String → Int) (ops : List LogOp) (l : List LogEntry) :
    List LogEntry :=
  ops.foldl (fun acc op => applyOp getTime op acc) l

/-- The per-profile view of the log (part_000 line 173):
logEntries.filter on the active profile id. -/
def entriesForProfile (p : String) (l : List LogEntry) : List LogEntry :=
  l.filter (fun e => e.profileId == p)

/-- Number of log entries carrying a given timestamp. -/
def countTs (ts : String) (l : List LogEntry) : Nat :=
  l.countP (fun e => e.timestamp == ts)

/-! Session-table lemmas. -/

theorem sessionsGet_delete_self (t : SessionTable) (k : String) :
    sessionsGet (sessionsDelete t k) k = none := by
  have h : (sessionsDelete t k).find? (fun p => p.1 == k) = none := by
    rw [List.find?_eq_none]
    intro x hx
    have hx2 := List.of_mem_filter hx
    rw [bne_iff_ne] at hx2
    simp [hx2]
  simp [sessionsGet, h]

theorem sessionsDelete_idem (t : SessionTable) (k : String) :
    sessionsDelete (sessionsDelete t k) k = sessionsDelete t k := by
  unfold sessionsDelete
  rw [List.filter_filter]
  simp

theorem sessionsDelete_of_absent (t : SessionTable) (k : String)
    (h : sessionsGet t k = none) : sessionsDelete t k = t := by
  unfold sessionsGet at h
  rw [Option.map_eq_none', List.find?_eq_none] at h
  unfold sessionsDelete
  rw [List.filter_eq_self]
  intro p hp
  have hne := h p hp
  simp only [Bool.not_eq_true] at hne
  simp [bne, hne]

theorem find?_map_set (t : SessionTable) (k : String) (v : Session)
    (h : t.any (fun p => p.1 == k) = true) :
    (t.map (fun p => if p.1 == k then (k, v) else p)).find? (fun p => p.1 == k)
      = some (k, v) := by
  induction t with
  | nil => simp at h
  | cons p t ih =>
    by_cases hp : p.1 = k
    · simp [List.find?_cons, hp]
    · have hb : (p.1 == k) = false := by simp [hp]
      simp only [List.any_cons, hb, Bool.false_or] at h
      rw [List.map_cons, List.find?_cons]
      have hb2 : ((if (p.1 == k) = true then (k, v) else p).1 == k) = false := by
        simp [hb, hp]
      simp only [hb2]
      exact ih h

theorem sessionsGet_set_self (t : SessionTable) (k : String) (v : Session) :
    sessionsGet (sessionsSet t k v) k = some v := by
  unfold sessionsSet sessionsGet
  by_cases h : t.any (fun p => p.1 == k)
  · rw [if_pos h, find?_map_set t k v h]
    rfl
  · rw [if_neg h]
    have hn : t.find? (fun p => p.1 == k) = none := by
      rw [List.find?_eq_none]
      intro x hx hbeq
      exact h (List.any_of_mem hx hbeq)
    rw [List.find?_append, hn]
    simp

theorem isEmpty_false_of_ne (s : String) (h : s ≠ "") : s.isEmpty = false := by
  rw [Bool.eq_false_iff]
  intro habs
  exact h ((String.isEmpty_iff s).mp habs)

/-- C7: the disconnect route removes the session record when present, is a
no-op when the record is absent, always answers success true, and running
it twice leaves the table exactly as running it once. -/
theorem disconnect_idempotent (t : SessionTable) (sid : String)
    (w w' : Except Unit Unit) (hsid : sid ≠ "") :
    (disconnectRoute t (some sid) w).1 = sessionsDelete t sid
    ∧ sessionsGet ((disconnectRoute t (some sid) w).1) sid = none
    ∧ (∀ sidOpt w0, (disconnectRoute t sidOpt w0).2.success = true)
    ∧ (sessionsGet t sid = none → (disconnectRoute t (some sid) w).1 = t)
    ∧ (disconnectRoute ((disconnectRoute t (some sid) w).1) (some sid) w').1
        = (disconnectRoute t (some sid) w).1 := by
  have hE := isEmpty_false_of_ne sid hsid
  refine ⟨?_, ?_, ?_, ?_, ?_⟩
  · simp [disconnectRoute, hE]
  · simp [disconnectRoute, hE, sessionsGet_delete_self]
  · intro sidOpt w0
    cases sidOpt <;> simp [disconnectRoute]
  · intro habs
    simp [disconnectRoute, hE, sessionsDelete_of_absent t sid habs]
  · simp [disconnectRoute, hE, sessionsDelete_idem]

/-- C7 witness at a concrete table and session id. -/
theorem disconnect_idempotent_witness :
    (disconnectRoute [("s1", ⟨"t", "v", "u", "a", "EU", "b"⟩)] (some "s1") (.ok ()) ).1
      = sessionsDelete [("s1", ⟨"t", "v", "u", "a", "EU", "b"⟩)] "s1"
    ∧ sessionsGet ((disconnectRoute [("s1", ⟨"t", "v", "u", "a", "EU", "b"⟩)]
        (some "s1") (.ok ()) ).1) "s1" = none :=
  ⟨(disconnect_idempotent [("s1", ⟨"t", "v", "u", "a", "EU", "b"⟩)] "s1" (.ok ()) (.ok ())
      (by decide)).1,
   (disconnect_idempotent [("s1", ⟨"t", "v", "u", "a", "EU", "b"⟩)] "s1" (.ok ()) (.ok ())
      (by decide)).2.1⟩

/-- C8: a failing durable-storage write never affects a session-table
mutation: the connect route's store step and the disconnect route behave
identically for every write outcome, the in-memory mutation takes effect,
and the success response is returned. -/
theorem persistence_best_effort (t : SessionTable) (sid : String) (s : Session)
    (w : Except Unit Unit) (sidOpt : Option String) :
    connectStoreSession t sid s w = connectStoreSession t sid s (.ok ())
    ∧ (connectStoreSession t sid s w).1 = sessionsSet t sid s
    ∧ sessionsGet ((connectStoreSession t sid s w).1) sid = some s
    ∧ (connectStoreSession t sid s w).2.success = true
    ∧ (connectStoreSession t sid s w).2.status = 200
    ∧ disconnectRoute t sidOpt w = disconnectRoute t sidOpt (.ok ())
    ∧ (disconnectRoute t sidOpt w).2.success = true :=
  ⟨rfl, rfl, sessionsGet_set_self t sid s, rfl, rfl, rfl, rfl⟩

/-! Sorting lemmas. -/

theorem sortedDesc_sort (getTime : String → Int) (l : List LogEntry) :
    SortedDesc getTime (sortByTimestampDesc getTime l) := by
  have h := @List.sorted_mergeSort LogEntry
    (fun a b => decide (getTime b.timestamp ≤ getTime a.timestamp))
    (fun a b c hab hbc => by
      simp only [decide_eq_true_eq] at hab hbc ⊢
      exact le_trans hbc hab)
    (fun a b => by
      simp only [Bool.or_eq_true, decide_eq_true_eq]
      exact le_total _ _)
    l
  exact h.imp (fun hab => by simpa using hab)

theorem perm_sort (getTime : String → Int) (l : List LogEntry) :
    (sortByTimestampDesc getTime l).Perm l :=
  List.mergeSort_perm l _

theorem applyOp_sorted (getTime : String → Int) (op : LogOp) (l : List LogEntry)
    (h : SortedDesc getTime l) : SortedDesc getTime (applyOp getTime op l) := by
  cases op with
  | manual nid now d ts pid =>
    cases pid with
    | none => simpa [applyOp, addEntry] using h
    | some p =>
      simp only [applyOp, addEntry]
      exact sortedDesc_sort _ _
  | sync nid pid rs =>
    simp only [applyOp, syncMergeLog]
    split
    · exact sortedDesc_sort _ _
    · exact h

/-- C6: after any sequence of insertions (manual addEntry or sync-loop
merges) starting from a descending-sorted log, the whole log and the
per-profile view of the log are sorted by timestamp, descending. -/
theorem log_sorted_after_ops (getTime : String → Int) (ops : List LogOp)
    (init : List LogEntry) (p : String) (h : SortedDesc getTime init) :
    SortedDesc getTime (applyOps getTime ops init)
    ∧ SortedDesc getTime (entriesForProfile p (applyOps getTime ops init)) := by
  have main : SortedDesc getTime (applyOps getTime ops init) := by
    induction ops generalizing init with
    | nil => exact h
    | cons op ops ih =>
      have h1 := applyOp_sorted getTime op init h
      simpa [applyOps, List.foldl_cons] using ih _ h1
  refine ⟨main, ?_⟩
  unfold entriesForProfile
  exact main.filter _

/-- C6 witness: one manual insertion then one sync merge, from the empty
log. -/
theorem log_sorted_after_ops_witness :
    SortedDesc (fun _ => 0)
      (applyOps (fun _ => 0)
        [.manual "id1" "T1" (.note "x") none (some "p1"),
         .sync (fun _ => "id2") (some "p1") [⟨some 100, "T2", none, none⟩]] [])
    ∧ SortedDesc (fun _ => 0)
      (entriesForProfile "p1"
        (applyOps (fun _ => 0)
          [.manual "id1" "T1" (.note "x") none (some "p1"),
           .sync (fun _ => "id2") (some "p1") [⟨some 100, "T2", none, none⟩]] [])) :=
  log_sorted_after_ops (fun _ => 0)
    [.manual "id1" "T1" (.note "x") none (some "p1"),
     .sync (fun _ => "id2") (some "p1") [⟨some 100, "T2", none, none⟩]] [] "p1"
    (List.Pairwise.nil)

/-! Sync-merge lemmas. -/

theorem syncNewEntries_nil_of_dup (newId : Nat → String) (pid : Option String)
    (existing : List String) (i : Nat) (rs : List SyncReading)
    (h : ∀ r ∈ rs, r.timestamp ∈ existing) :
    syncNewEntries newId pid existing i rs = [] := by
  induction rs generalizing i with
  | nil => rfl
  | cons r rs ih =>
    have hr := h r (by simp)
    simp [syncNewEntries, hr, ih (i + 1) (fun x hx => h x (by simp [hx]))]

theorem syncNewEntries_pid_none (newId : Nat → String) (existing : List String)
    (i : Nat) (rs : List SyncReading) :
    syncNewEntries newId none existing i rs = [] := by
  induction rs generalizing i with
  | nil => rfl
  | cons r rs ih =>
    simp only [syncNewEntries, ih (i + 1)]
    split
    · rfl
    · cases r.value <;> rfl

theorem syncNewEntries_values_none (newId : Nat → String) (pid : Option String)
    (existing : List String) (i : Nat) (rs : List SyncReading)
    (h : ∀ r ∈ rs, r.value = none) :
    syncNewEntries newId pid existing i rs = [] := by
  induction rs generalizing i with
  | nil => rfl
  | cons r rs ih =>
    have hr := h r (by simp)
    simp only [syncNewEntries, ih (i + 1) (fun x hx => h x (by simp [hx])), hr]
    split <;> rfl

theorem syncNewEntries_single_fresh (newId : Nat → String) (p : String)
    (existing : List String) (r : SyncReading) (v : Int)
    (hmem : r.timestamp ∉ existing) (hv : r.value = some v) :
    syncNewEntries newId (some p) existing 0 [r] =
      [{ id := newId 0, timestamp := r.timestamp, profileId := p,
         data := .bloodSugar v .cgm r.trendArrow }] := by
  simp [syncNewEntries, hmem, hv]

theorem mem_syncNewEntries (newId : Nat → String) (pid : Option String)
    (existing : List String) (i : Nat) (rs : List SyncReading) (e : LogEntry)
    (h : e ∈ syncNewEntries newId pid existing i rs) :
    ∃ pv : String × Int × Nat × SyncReading, pid = some pv.1 ∧ pv.2.2.2 ∈ rs
      ∧ pv.2.2.2.value = some pv.2.1
      ∧ e = { id := newId pv.2.2.1, timestamp := pv.2.2.2.timestamp, profileId := pv.1,
              data := .bloodSugar pv.2.1 .cgm pv.2.2.2.trendArrow } := by
  induction rs generalizing i with
  | nil => simp [syncNewEntries] at h
  | cons r rs ih =>
    simp only [syncNewEntries] at h
    split at h
    · obtain ⟨⟨p, v, j, r0⟩, hp, hr, hv, he⟩ := ih (i + 1) h
      exact ⟨⟨p, v, j, r0⟩, hp, by simp [hr], hv, he⟩
    · cases hval : r.value with
      | none =>
        simp only [hval] at h
        obtain ⟨⟨p, v, j, r0⟩, hp, hr, hv, he⟩ := ih (i + 1) h
        exact ⟨⟨p, v, j, r0⟩, hp, by simp [hr], hv, he⟩
      | some v =>
        simp only [hval] at h
        cases pid with
        | none =>
          obtain ⟨⟨p, v0, j, r0⟩, hp, hr, hv, he⟩ := ih (i + 1) h
          exact ⟨⟨p, v0, j, r0⟩, hp, by simp [hr], hv, he⟩
        | some p =>
          rcases List.mem_cons.mp h with he | htail
          · exact ⟨⟨p, v, i, r⟩, rfl, by simp, hval, he⟩
          · obtain ⟨⟨p0, v0, j, r0⟩, hp, hr, hv, he⟩ := ih (i + 1) htail
            exact ⟨⟨p0, v0, j, r0⟩, hp, by simp [hr], hv, he⟩

theorem syncTickLog_noop_of_mem (getTime : String → Int) (newId : Nat → String)
    (pid : Option String) (rs : List SyncReading) (prev : List LogEntry)
    (h : ∀ r ∈ rs, r.timestamp ∈ prev.map (fun e => e.timestamp)) :
    syncTickLog getTime newId pid rs prev = prev := by
  unfold syncTickLog syncMergeLog
  rcases rs with _ | ⟨r, rs⟩
  · simp
  · rw [syncNewEntries_nil_of_dup _ _ _ _ _ h]
    simp

theorem syncTickLog_fresh_single (getTime : String → Int) (newId : Nat → String)
    (p : String) (r : SyncReading) (v : Int) (prev : List LogEntry)
    (hv : r.value = some v)
    (hfresh : ∀ e ∈ prev, e.timestamp ≠ r.timestamp) :
    syncTickLog getTime newId (some p) [r] prev =
      sortByTimestampDesc getTime (prev ++
        [{ id := newId 0, timestamp := r.timestamp, profileId := p,
           data := .bloodSugar v .cgm r.trendArrow }]) := by
  unfold syncTickLog syncMergeLog
  have hmem : r.timestamp ∉ prev.map (fun e => e.timestamp) := by
    rw [List.mem_map]
    rintro ⟨e, he, ht⟩
    exact hfresh e he ht
  rw [syncNewEntries_single_fresh _ _ _ _ _ hmem hv]
  simp

theorem iterTicks_noop (getTime : String → Int) (newId : Nat → String)
    (pid : Option String) (rs : List SyncReading) (n : Nat) (l : List LogEntry)
    (h : ∀ r ∈ rs, r.timestamp ∈ l.map (fun e => e.timestamp)) :
    iterTicks getTime newId pid rs n l = l := by
  induction n with
  | zero => rfl
  | succ n ih =>
    show iterTicks getTime newId pid rs n (syncTickLog getTime newId pid rs l) = l
    rw [syncTickLog_noop_of_mem _ _ _ _ _ h, ih]

/-- C1: a fetched reading whose timestamp already belongs to a log entry of
the active profile is discarded and the tick leaves the log unchanged (the
first conjunct covers a whole batch of such readings); consequently,
polling one unchanged fresh reading any number N of times, N at least 1,
yields exactly one log entry with that timestamp. -/
theorem sync_dedup_idempotent (getTime : String → Int) (newId : Nat → String)
    (p : String) :
    (∀ (readings : List SyncReading) (prev : List LogEntry),
       (∀ r ∈ readings, ∃ e ∈ prev, e.profileId = p ∧ e.timestamp = r.timestamp) →
       syncTickLog getTime newId (some p) readings prev = prev)
    ∧ (∀ (r : SyncReading) (v : Int) (prev : List LogEntry), r.value = some v →
       (∀ e ∈ prev, e.timestamp ≠ r.timestamp) →
       ∀ n, 1 ≤ n →
       countTs r.timestamp (iterTicks getTime newId (some p) [r] n prev) = 1) := by
  constructor
  · intro rs prev h
    apply syncTickLog_noop_of_mem
    intro r hr
    obtain ⟨e, he, _, ht⟩ := h r hr
    exact List.mem_map.mpr ⟨e, he, ht⟩
  · intro r v prev hv hfresh n hn
    obtain ⟨m, rfl⟩ : ∃ m, n = m + 1 := ⟨n - 1, by omega⟩
    have h1 := syncTickLog_fresh_single getTime newId p r v prev hv hfresh
    have hmem : ∀ r0 ∈ [r], r0.timestamp ∈
        (sortByTimestampDesc getTime (prev ++
          [{ id := newId 0, timestamp := r.timestamp, profileId := p,
             data := .bloodSugar v .cgm r.trendArrow }])).map (fun e => e.timestamp) := by
      intro r0 hr0
      rw [List.mem_singleton] at hr0
      rw [hr0]
      refine List.mem_map.mpr
        ⟨{ id := newId 0, timestamp := r.timestamp, profileId := p,
           data := .bloodSugar v .cgm r.trendArrow },
         ((perm_sort _ _).mem_iff).mpr ?_, rfl⟩
      exact List.mem_append.mpr (Or.inr (by simp))
    show countTs r.timestamp (iterTicks getTime newId (some p) [r] m
      (syncTickLog getTime newId (some p) [r] prev)) = 1
    rw [h1, iterTicks_noop _ _ _ _ _ _ hmem]
    unfold countTs
    rw [List.Perm.countP_eq _ (perm_sort getTime _), List.countP_append]
    have hz : prev.countP (fun e => e.timestamp == r.timestamp) = 0 := by
      rw [List.countP_eq_zero]
      intro e he
      simp [hfresh e he]
    simp [hz]

/-- C1 witness: a tick over a duplicate timestamp leaves a one-entry log
unchanged, and two ticks over a fresh reading on the empty log leave
exactly one entry with that timestamp. -/
theorem sync_dedup_idempotent_witness :
    syncTickLog (fun _ => 0) (fun _ => "id") (some "p1") [⟨some 100, "T1", none, none⟩]
      [⟨"e1", "T1", "p1", .note "x"⟩] = [⟨"e1", "T1", "p1", .note "x"⟩]
    ∧ countTs "T1" (iterTicks (fun _ => 0) (fun _ => "id") (some "p1")
        [⟨some 100, "T1", none, none⟩] 2 []) = 1 :=
  ⟨(sync_dedup_idempotent (fun _ => 0) (fun _ => "id") "p1").1
      [⟨some 100, "T1", none, none⟩] [⟨"e1", "T1", "p1", .note "x"⟩]
      (by
        intro r hr
        exact ⟨⟨"e1", "T1", "p1", .note "x"⟩, by simp, rfl, by
          rw [List.mem_singleton] at hr
          subst hr
          rfl⟩),
   (sync_dedup_idempotent (fun _ => 0) (fun _ => "id") "p1").2
      ⟨some 100, "T1", none, none⟩ 100 [] rfl (by simp) 2 (by omega)⟩

/-- C10: every entry the sync merge adds to the log is a blood-sugar entry
of CGM measurement type carrying a non-null numeric value and the active
profile id; with no active profile, or with only null-valued (sensor-only)
readings, the log is returned unchanged. -/
theorem sync_appends_cgm_entries (getTime : String → Int) (newId : Nat → String)
    (pid : Option String) (rs : List SyncReading) (prev : List LogEntry) :
    (∀ e ∈ syncMergeLog getTime newId pid rs prev, e ∈ prev ∨
       ∃ pv : String × Int × Nat × SyncReading, pid = some pv.1 ∧ pv.2.2.2 ∈ rs
         ∧ pv.2.2.2.value = some pv.2.1
         ∧ e = { id := newId pv.2.2.1, timestamp := pv.2.2.2.timestamp,
                 profileId := pv.1,
                 data := .bloodSugar pv.2.1 .cgm pv.2.2.2.trendArrow })
    ∧ (pid = none → syncMergeLog getTime newId pid rs prev = prev)
    ∧ ((∀ r ∈ rs, r.value = none) → syncMergeLog getTime newId pid rs prev = prev) := by
  refine ⟨?_, ?_, ?_⟩
  · intro e he
    simp only [syncMergeLog] at he
    split at he
    · rcases List.mem_append.mp (((perm_sort getTime _).mem_iff).mp he) with hp | hnew
      · exact Or.inl hp
      · exact Or.inr (mem_syncNewEntries _ _ _ _ _ _ hnew)
    · exact Or.inl he
  · intro hpid
    subst hpid
    unfold syncMergeLog
    rw [syncNewEntries_pid_none]
    simp
  · intro hvals
    unfold syncMergeLog
    rw [syncNewEntries_values_none _ _ _ _ _ hvals]
    simp

/-- C10 witness: with no active profile, or with a sensor-only (null value)
reading, the merge leaves the log unchanged; with an active profile and a
valued reading, the single appended entry has the CGM blood-sugar shape. -/
theorem sync_appends_cgm_entries_witness :
    syncMergeLog (fun _ => 0) (fun _ => "id") none [⟨some 100, "T1", none, none⟩] [] = []
    ∧ syncMergeLog (fun _ => 0) (fun _ => "id") (some "p1") [⟨none, "T1", none, none⟩] [] = []
    ∧ (⟨"id", "T1", "p1", .bloodSugar 100 .cgm none⟩ ∈
          syncMergeLog (fun _ => 0) (fun _ => "id") (some "p1")
            [⟨some 100, "T1", none, none⟩] [] ∨
        ∃ pv : String × Int × Nat × SyncReading, (some "p1" : Option String) = some pv.1
          ∧ pv.2.2.2 ∈ [(⟨some 100, "T1", none, none⟩ : SyncReading)]
          ∧ pv.2.2.2.value = some pv.2.1
          ∧ (⟨"id", "T1", "p1", .bloodSugar 100 .cgm none⟩ : LogEntry)
              = { id := "id", timestamp := pv.2.2.2.timestamp, profileId := pv.1,
                  data := .bloodSugar pv.2.1 .cgm pv.2.2.2.trendArrow }) :=
  ⟨(sync_appends_cgm_entries (fun _ => 0) (fun _ => "id") none
      [⟨some 100, "T1", none, none⟩] []).2.1 rfl,
   (sync_appends_cgm_entries (fun _ => 0) (fun _ => "id") (some "p1")
      [⟨none, "T1", none, none⟩] []).2.2 (by simp),
   Or.inr (by
     rcases (sync_appends_cgm_entries (fun _ => 0) (fun _ => "id") (some "p1")
        [⟨some 100, "T1", none, none⟩] []).1
        ⟨"id", "T1", "p1", .bloodSugar 100 .cgm none⟩
        (by simp [syncMergeLog, syncNewEntries, sortByTimestampDesc]) with h | h
     · exact absurd h (List.not_mem_nil _)
     · obtain ⟨pv, hp, hr, hv, he⟩ := h
       exact ⟨pv, hp, hr, hv, by rw [he]⟩)⟩

/-! Read-route lemmas. -/

theorem finishRead_status_lt_500 (reading : Option (Int × Int)) (trend : Option Int)
    (sInfo : Option SensorInfo) (nowMs : Int) :
    (finishRead reading trend sInfo nowMs).status < 500 := by
  unfold finishRead
  cases reading <;> cases sInfo <;> simp [ReadResult.status]

theorem readRoute_status_lt_500 (t : SessionTable) (sessionId : Option String)
    (cons : Except Unit ConsResp) (hist : Except Unit HistResp) (nowMs : Int) :
    (readRoute t sessionId cons hist nowMs).1.status < 500 := by
  unfold readRoute
  repeat' first
    | exact finishRead_status_lt_500 _ _ _ _
    | split
    | simp [ReadResult.status]

/-- C9: once the session lookup succeeds, a thrown vendor exception — on
the connections call, or on the graph call whenever it is consulted —
produces the 204 no-data response with the table untouched, the very
response of a genuine absence of data; and no input whatsoever makes the
read route answer a 5xx status. -/
theorem read_vendor_failure_as_no_data (t : SessionTable) (sid : String)
    (s : Session) (hsid : sid ≠ "") (hlook : sessionsGet t sid = some s) :
    (∀ (hist : Except Unit HistResp) (nowMs : Int),
        readRoute t (some sid) (.error ()) hist nowMs = (.noData, t))
    ∧ (∀ (c : ConsResp) (first : RawConn) (nowMs : Int),
        c.status ≠ 401 → firstConnection c = some first →
        needsGraphFallback (embeddedReading first nowMs) (sensorOfConn first nowMs)
          nowMs = true →
        readRoute t (some sid) (.ok c) (.error ()) nowMs = (.noData, t))
    ∧ (∀ sessionId cons hist nowMs,
        (readRoute t sessionId cons hist nowMs).1.status < 500) := by
  have hE := isEmpty_false_of_ne sid hsid
  refine ⟨?_, ?_, ?_⟩
  · intro hist nowMs
    simp [readRoute, hE, hlook]
  · intro c first nowMs hstat hfc hng
    have hb : (c.status == 401) = false := by simp [hstat]
    simp [readRoute, hE, hlook, hb, hfc, hng]
  · intro sessionId cons hist nowMs
    exact readRoute_status_lt_500 t sessionId cons hist nowMs

/-- C9 witness at a concrete table: a thrown connections call yields the
204 outcome with the table unchanged, and its status is below 500. -/
theorem read_vendor_failure_as_no_data_witness :
    readRoute [("s1", ⟨"t", "v", "u", "a", "EU", "b"⟩)] (some "s1") (.error ())
        (.ok ⟨200, none⟩) 0
      = (.noData, [("s1", ⟨"t", "v", "u", "a", "EU", "b"⟩)])
    ∧ (readRoute [("s1", ⟨"t", "v", "u", "a", "EU", "b"⟩)] (some "s1") (.error ())
        (.ok ⟨200, none⟩) 0).1.status < 500 :=
  ⟨(read_vendor_failure_as_no_data [("s1", ⟨"t", "v", "u", "a", "EU", "b"⟩)] "s1"
      ⟨"t", "v", "u", "a", "EU", "b"⟩ (by decide) rfl).1 _ 0,
   (read_vendor_failure_as_no_data [("s1", ⟨"t", "v", "u", "a", "EU", "b"⟩)] "s1"
      ⟨"t", "v", "u", "a", "EU", "b"⟩ (by decide) rfl).2.2 _ _ _ 0⟩

/-- C3 (amended): a 401 on the connections call removes the session record
(a subsequent lookup finds it absent) and surfaces HTTP 401; the sync loop
maps that failure, whose message mentions Oturum, to a full disconnect:
the disconnect route removes the session and the status is reset to
disconnected. (The graph fallback call is the one step whose 401 is
ignored; see the counterexample.) -/
theorem session_expiry_full_disconnect (t : SessionTable) (sid : String)
    (s : Session) (c : ConsResp) (hist : Except Unit HistResp) (nowMs : Int)
    (getTime : String → Int) (newId : Nat → String) (pid : Option String)
    (cs : ClientState) (msg : String) (w : Except Unit Unit)
    (hsid : sid ≠ "") (hlook : sessionsGet t sid = some s) (h401 : c.status = 401) :
    readRoute t (some sid) (.ok c) hist nowMs = (.tokenExpired, sessionsDelete t sid)
    ∧ sessionsGet (sessionsDelete t sid) sid = none
    ∧ (ReadResult.tokenExpired).status = 401
    ∧ fetchResultOfRead .tokenExpired = .error "Oturum süresi doldu"
    ∧ msgMentionsOturum "Oturum süresi doldu" = true
    ∧ (msgMentionsOturum msg = true →
        syncTick getTime newId true pid (.error msg) t (some sid) w cs
          = ((disconnectRoute t (some sid) w).1, { cs with status := .disconnected }))
    ∧ sessionsGet ((disconnectRoute t (some sid) w).1) sid = none := by
  have hE := isEmpty_false_of_ne sid hsid
  refine ⟨?_, sessionsGet_delete_self t sid, rfl, rfl, by decide, ?_, ?_⟩
  · simp [readRoute, hE, hlook, h401]
  · intro hmsg
    simp [syncTick, hmsg]
  · simp [disconnectRoute, hE, sessionsGet_delete_self]

/-- C3 witness at a concrete table and a concrete 401 connections
response. -/
theorem session_expiry_full_disconnect_witness :
    readRoute [("s1", ⟨"t", "v", "u", "a", "EU", "b"⟩)] (some "s1")
        (.ok ⟨401, none⟩) (.ok ⟨200, none⟩) 0
      = (.tokenExpired, sessionsDelete [("s1", ⟨"t", "v", "u", "a", "EU", "b"⟩)] "s1")
    ∧ sessionsGet (sessionsDelete [("s1", ⟨"t", "v", "u", "a", "EU", "b"⟩)] "s1") "s1"
        = none :=
  ⟨(session_expiry_full_disconnect [("s1", ⟨"t", "v", "u", "a", "EU", "b"⟩)] "s1"
      ⟨"t", "v", "u", "a", "EU", "b"⟩
      ⟨401, none⟩ (.ok ⟨200, none⟩) 0 (fun _ => 0) (fun _ => "id") none
      ⟨[], .connected⟩ "m" (.ok ()) (by decide) rfl rfl).1,
   (session_expiry_full_disconnect [("s1", ⟨"t", "v", "u", "a", "EU", "b"⟩)] "s1"
      ⟨"t", "v", "u", "a", "EU", "b"⟩
      ⟨401, none⟩ (.ok ⟨200, none⟩) 0 (fun _ => 0) (fun _ => "id") none
      ⟨[], .connected⟩ "m" (.ok ()) (by decide) rfl rfl).2.1⟩

/-- C3 counterexample: a 401 arriving at the graph fallback step — not at
the connections step — is ignored: the session stays in the table and the
caller receives 204, not the 401 SessionExpired removal that the claim
asserts for a 401 at any step. -/
theorem graph_step_401_ignored :
    readRoute [("s1", ⟨"t", "v", "u", "a", "EU", "b"⟩)] (some "s1")
        (.ok ⟨200, some [⟨some false, none, none, "p1"⟩]⟩) (.ok ⟨401, none⟩) 0
      = (.noData, [("s1", ⟨"t", "v", "u", "a", "EU", "b"⟩)])
    ∧ sessionsGet [("s1", ⟨"t", "v", "u", "a", "EU", "b"⟩)] "s1"
        = some ⟨"t", "v", "u", "a", "EU", "b"⟩
    ∧ (ReadResult.noData).status ≠ 401 := by
  refine ⟨by decide, rfl, by decide⟩

/-- C2 (amended): a call that fails with a timeout on every attempt makes
exactly 4 attempts (the initial one plus the 3 retries of the default
budget), sleeping 1s, 2s and 3s between successive attempts (nothing
before the first), and fails with the timeout error, which the connect
route surfaces as HTTP 504 (GatewayTimeout); a non-retryable 4xx failure
is thrown immediately after a single attempt with no delay. -/
theorem retry_policy (call : Nat → Except AxiosErr Unit) :
    ((∀ k, call k = .error .timeout) →
       axiosWithRetry call 0 3 = (.error .timeout, 4, [1000, 2000, 3000])
       ∧ connectErrStatus .timeout = 504)
    ∧ (∀ s : Nat, call 0 = .error (.http s) → s < 500 →
       axiosWithRetry call 0 3 = (.error (.http s), 1, [])) := by
  constructor
  · intro h
    refine ⟨?_, rfl⟩
    simp [axiosWithRetry, h 0, h 1, h 2, h 3, AxiosErr.isTimeout]
  · intro s h0 hs
    have hb : ((AxiosErr.http s).isTimeout || (AxiosErr.http s).isServerErr) = false := by
      simp only [AxiosErr.isTimeout, AxiosErr.isServerErr, Bool.false_or,
        decide_eq_false_iff_not]
      omega
    simp [axiosWithRetry, h0, hb]

/-- C2 witness: an always-timing-out call and a single 404 call, at the
default retry budget. -/
theorem retry_policy_witness :
    axiosWithRetry (fun _ => (.error .timeout : Except AxiosErr Unit)) 0 3
      = (.error .timeout, 4, [1000, 2000, 3000])
    ∧ axiosWithRetry
        (fun k => if k = 0 then (.error (.http 404) : Except AxiosErr Unit) else .ok ()) 0 3
      = (.error (.http 404), 1, []) :=
  ⟨((retry_policy (fun _ => .error .timeout)).1 (fun _ => rfl)).1,
   (retry_policy (fun k => if k = 0 then .error (.http 404) else .ok ())).2 404
     rfl (by omega)⟩

/-- C2 counterexample: the always-timing-out call performs 4 attempts with
delays 1s/2s/3s, not the 3 attempts with delays 0s/1s/2s of the claim. -/
theorem retry_policy_counterexample :
    (axiosWithRetry (fun _ => (.error .timeout : Except AxiosErr Unit)) 0 3).2
      = (4, [1000, 2000, 3000])
    ∧ (axiosWithRetry (fun _ => (.error .timeout : Except AxiosErr Unit)) 0 3).2.1 ≠ 3 := by
  decide

/-- C4 (amended): the 75-second timeout bounds only the login call of the
connect sequence: when it elapses, the race fails with TIMEOUT at the
75 s mark and the final status is connected (simulated mode) when the
libreIsMock fallback flag is set, error otherwise. The first sync is
awaited outside the race, so the full login-plus-sync sequence is not
bounded by it (see the counterexample). -/
theorem connect_timeout_fallback (mock : Bool) (loginMs syncMs : Nat)
    (lr : Except String Bool) (h : 75000 ≤ loginMs) :
    connectRace loginMs lr = .error "TIMEOUT"
    ∧ connectLibre mock loginMs syncMs lr
        = ((if mock then .connected else .error), 75000) := by
  have hnl : ¬ loginMs < 75000 := not_lt.mpr h
  constructor
  · simp [connectRace, hnl]
  · simp [connectLibre, connectRace, hnl, Nat.min_eq_right h]

/-- C4 witness: a login that would settle at 80 s is cut off at 75 s, with
status error without the fallback flag and connected with it. -/
theorem connect_timeout_fallback_witness :
    connectRace 80000 (.ok true) = .error "TIMEOUT"
    ∧ connectLibre false 80000 5000 (.ok true) = (.error, 75000)
    ∧ connectLibre true 80000 5000 (.ok true) = (.connected, 75000) :=
  ⟨(connect_timeout_fallback false 80000 5000 (.ok true) (by omega)).1,
   by simpa using (connect_timeout_fallback false 80000 5000 (.ok true) (by omega)).2,
   by simpa using (connect_timeout_fallback true 80000 5000 (.ok true) (by omega)).2⟩

/-- C4 counterexample: a connect whose login resolves successfully at 1 s
and whose first sync takes 100 s completes, with status connected, only at
101 s — past the 75 s bound the claim asserts for the whole login-plus-sync
sequence, and with no timeout failure raised. -/
theorem connect_timeout_scope_counterexample :
    connectLibre false 1000 100000 (.ok true) = (.connected, 101000)
    ∧ ¬ (101000 ≤ 75000) := by decide

theorem mkSensorInfo_act (sn : String) (pt : Option Int) (t0 nowMs : Int)
    (h0 : t0 ≠ 0) :
    mkSensorInfo ⟨some t0, sn, pt⟩ nowMs =
      { serial := sn, startDateMs := t0 * 1000,
        endDateMs := t0 * 1000 + 14 * msPerDay,
        daysLeft := max 0 (ceilDiv (t0 * 1000 + 14 * msPerDay - nowMs) msPerDay),
        state := sensorStateStr pt } := by
  simp [mkSensorInfo, h0]

/-- C5 (amended): for a sensor with a truthy activation epoch t0, the
wear-life computed by the read route satisfies endDate = startDate + 14
days and daysLeft = max(0, ceil((endDate - now) / 1 day)); daysLeft is
never negative, and is at most 14 whenever the activation time is not in
the future; a sensor activated exactly 10 days before now yields
daysLeft = 4. The unconditional upper bound of 14 fails for future
activation epochs (see the counterexample). -/
theorem sensor_days_left_bounds (sn : String) (pt : Option Int) (t0 nowMs : Int)
    (h0 : t0 ≠ 0) :
    (mkSensorInfo ⟨some t0, sn, pt⟩ nowMs).endDateMs
        = (mkSensorInfo ⟨some t0, sn, pt⟩ nowMs).startDateMs + 14 * msPerDay
    ∧ (mkSensorInfo ⟨some t0, sn, pt⟩ nowMs).daysLeft
        = max 0 (ceilDiv ((mkSensorInfo ⟨some t0, sn, pt⟩ nowMs).endDateMs - nowMs) msPerDay)
    ∧ 0 ≤ (mkSensorInfo ⟨some t0, sn, pt⟩ nowMs).daysLeft
    ∧ (t0 * 1000 ≤ nowMs → (mkSensorInfo ⟨some t0, sn, pt⟩ nowMs).daysLeft ≤ 14)
    ∧ (nowMs = t0 * 1000 + 10 * msPerDay →
        (mkSensorInfo ⟨some t0, sn, pt⟩ nowMs).daysLeft = 4) := by
  rw [mkSensorInfo_act sn pt t0 nowMs h0]
  refine ⟨rfl, rfl, le_max_left 0 _, ?_, ?_⟩
  · intro hle
    have hM : msPerDay = 86400000 := by norm_num [msPerDay]
    have hdiv : ceilDiv (t0 * 1000 + 14 * msPerDay - nowMs) msPerDay ≤ 14 := by
      unfold ceilDiv
      rw [hM]
      calc Int.ediv (t0 * 1000 + 14 * 86400000 - nowMs + 86400000 - 1) 86400000
          ≤ Int.ediv (15 * 86400000 - 1) 86400000 :=
            Int.ediv_le_ediv (by norm_num) (by omega)
        _ = 14 := by decide
    exact max_le (by norm_num) hdiv
  · intro hnow
    subst hnow
    have h4 : t0 * 1000 + 14 * msPerDay - (t0 * 1000 + 10 * msPerDay)
        = 4 * msPerDay := by ring
    simp only [h4]
    decide

/-- C5 witness: a sensor activated 10 days before the evaluation time
sits inside the bounds with daysLeft = 4. -/
theorem sensor_days_left_witness :
    0 ≤ (mkSensorInfo ⟨some 1000, "sn", some 2⟩ 865000000).daysLeft
    ∧ (mkSensorInfo ⟨some 1000, "sn", some 2⟩ 865000000).daysLeft ≤ 14
    ∧ (mkSensorInfo ⟨some 1000, "sn", some 2⟩ 865000000).daysLeft = 4 :=
  ⟨(sensor_days_left_bounds "sn" (some 2) 1000 865000000 (by decide)).2.2.1,
   (sensor_days_left_bounds "sn" (some 2) 1000 865000000 (by decide)).2.2.2.1 (by decide),
   (sensor_days_left_bounds "sn" (some 2) 1000 865000000 (by decide)).2.2.2.2 (by decide)⟩

/-- C5 counterexample: a sensor whose activation epoch lies one day in the
future yields daysLeft = 15, outside the 0..14 range the claim asserts for
every activation epoch. -/
theorem sensor_days_left_counterexample :
    (mkSensorInfo ⟨some 86400, "sn", some 2⟩ 0).daysLeft = 15
    ∧ ¬ ((mkSensorInfo ⟨some 86400, "sn", some 2⟩ 0).daysLeft ≤ 14) := by
  decide

end Diyabet
